import Mathlib

/-!
# Verification of the vertical-collection component wrapper

Shallow embedding of `src/addon/components/vertical-collection.ts`.

The component wraps a virtualization engine ("Radar"); the Radar classes,
`keyForItem` and `objectAt` live in the addon's `-private` tree, which is not
part of the sources here.  `keyForItem` is therefore treated as an
uninterpreted parameter `kf : Option α → String → Nat → String`
(item — possibly `undefined` —, key path, index), and `objectAt` on a nullable
collection is embedded as an `Option`-returning lookup.  Items are an opaque
type `α`; JS `null`/`undefined` arguments are `Option`s; JS numbers that can
go negative are `Int`.
-/

namespace VC

/-- `objectAt(items, i)`: element lookup on a possibly-null collection;
out of range or null collection yields `undefined` (`none`). -/
def objectAt {α : Type} (items : Option (List α)) (i : Nat) : Option α :=
  items.bind (fun l => l.get? i)

/-- The `for` loop body of `calculateStartingIndex`
(`src/addon/components/vertical-collection.ts:337-342`): scan indices
`i, i+1, ...` up to `items.length`, return the first `i` whose key equals
`idForFirstItem`, and `0` (the initial value of `startingIndex`) when the loop
finishes without a match. -/
def startingIndexLoop {α : Type} (items : List α) (kf : Option α → String → Nat → String)
    (key : String) (idf : String) (i : Nat) : Nat :=
  if h : i < items.length then
    if kf (objectAt (some items) i) key i == idf then i
    else startingIndexLoop items kf key idf (i + 1)
  else 0
termination_by items.length - i

/-- `calculateStartingIndex(items, idForFirstItem, key, renderFromLast)`
(`src/addon/components/vertical-collection.ts:331-349`).  The result is an
`Int` because in JS `totalItems - 1` is `-1` on an empty collection. -/
def calculateStartingIndex {α : Type} (items : List α) (idForFirstItem : Option String)
    (kf : Option α → String → Nat → String) (key : String) (renderFromLast : Bool) : Int :=
  match idForFirstItem with
  | some idf => (startingIndexLoop items kf key idf 0 : Int)
  | none => if renderFromLast then (items.length : Int) - 1 else 0

/-- Index `j` is a hit for `idForFirstItem`: it is in range and its key equals
the requested id. -/
def matchesAt {α : Type} (items : List α) (kf : Option α → String → Nat → String)
    (key : String) (idf : String) (j : Nat) : Prop :=
  j < items.length ∧ kf (objectAt (some items) j) key j = idf

instance {α : Type} (items : List α) (kf : Option α → String → Nat → String)
    (key : String) (idf : String) : DecidablePred (matchesAt items kf key idf) := by
  intro j
  unfold matchesAt
  infer_instance

theorem startingIndexLoop_of_no_match {α : Type} (items : List α)
    (kf : Option α → String → Nat → String) (key : String) (idf : String)
    (hno : ∀ j, ¬ matchesAt items kf key idf j) :
    ∀ d i, items.length - i = d → startingIndexLoop items kf key idf i = 0 := by
  intro d
  induction d with
  | zero =>
    intro i hd
    rw [startingIndexLoop]
    have : ¬ i < items.length := by omega
    simp [this]
  | succ d ih =>
    intro i hd
    rw [startingIndexLoop]
    by_cases h : i < items.length
    · have hkey : kf (objectAt (some items) i) key i ≠ idf := fun hk => hno i ⟨h, hk⟩
      simp only [h, dif_pos]
      rw [if_neg (by simpa using hkey)]
      exact ih (i + 1) (by omega)
    · simp [h]

theorem startingIndexLoop_of_first_match {α : Type} (items : List α)
    (kf : Option α → String → Nat → String) (key : String) (idf : String)
    (m : Nat) (hm : matchesAt items kf key idf m)
    (hmin : ∀ j, j < m → ¬ matchesAt items kf key idf j) :
    ∀ d i, m - i = d → i ≤ m → startingIndexLoop items kf key idf i = m := by
  intro d
  induction d with
  | zero =>
    intro i hd hle
    have him : i = m := by omega
    subst him
    rw [startingIndexLoop]
    simp only [hm.1, dif_pos]
    rw [if_pos (by simpa using hm.2)]
  | succ d ih =>
    intro i hd hle
    have hil : i < items.length := by
      have := hm.1; omega
    have hkey : kf (objectAt (some items) i) key i ≠ idf :=
      fun hk => hmin i (by omega) ⟨hil, hk⟩
    rw [startingIndexLoop]
    simp only [hil, dif_pos]
    rw [if_neg (by simpa using hkey)]
    exact ih (i + 1) (by omega) (by omega)

/-- C1: with a non-null `idForFirstItem`, `calculateStartingIndex` returns the
smallest index whose key (via `keyForItem`) equals `idForFirstItem`, and
degrades to `0` when no index matches. -/
theorem C1_startingIndex_least {α : Type} (items : List α)
    (kf : Option α → String → Nat → String) (key : String)
    (idForFirstItem : Option String) (idf : String) (renderFromLast : Bool)
    (hsome : idForFirstItem = some idf) :
    (∃ m, matchesAt items kf key idf m ∧ (∀ j, j < m → ¬ matchesAt items kf key idf j) ∧
      calculateStartingIndex items idForFirstItem kf key renderFromLast = (m : Int)) ∨
    ((∀ j, ¬ matchesAt items kf key idf j) ∧
      calculateStartingIndex items idForFirstItem kf key renderFromLast = 0) := by
  subst hsome
  by_cases hex : ∃ j, matchesAt items kf key idf j
  · left
    refine ⟨Nat.find hex, Nat.find_spec hex, fun j hj => Nat.find_min hex hj, ?_⟩
    show (startingIndexLoop items kf key idf 0 : Int) = _
    rw [startingIndexLoop_of_first_match items kf key idf (Nat.find hex) (Nat.find_spec hex)
      (fun j hj => Nat.find_min hex hj) (Nat.find hex - 0) 0 rfl (Nat.zero_le _)]
  · right
    have hno : ∀ j, ¬ matchesAt items kf key idf j := fun j hj => hex ⟨j, hj⟩
    refine ⟨hno, ?_⟩
    show (startingIndexLoop items kf key idf 0 : Int) = 0
    rw [startingIndexLoop_of_no_match items kf key idf hno (items.length - 0) 0 rfl]
    rfl

/-- Witness for C1 at a concrete input: items `["a", "b", "b"]` keyed by the
item itself, `idForFirstItem = "b"`; the computed starting index is 1, the
smallest match. -/
theorem C1_startingIndex_least_witness :
    (∃ m, matchesAt ["a", "b", "b"] (fun it _ _ => it.getD "") "@identity" "b" m ∧
      (∀ j, j < m → ¬ matchesAt ["a", "b", "b"] (fun it _ _ => it.getD "") "@identity" "b" j) ∧
      calculateStartingIndex ["a", "b", "b"] (some "b")
        (fun it _ _ => it.getD "") "@identity" false = (m : Int)) ∨
    ((∀ j, ¬ matchesAt ["a", "b", "b"] (fun it _ _ => it.getD "") "@identity" "b" j) ∧
      calculateStartingIndex ["a", "b", "b"] (some "b")
        (fun it _ _ => it.getD "") "@identity" false = 0) :=
  C1_startingIndex_least ["a", "b", "b"] (fun it _ _ => it.getD "") "@identity"
    (some "b") "b" false rfl

/-- C8: with `idForFirstItem` null and `renderFromLast = true`,
`calculateStartingIndex` returns `items.length - 1` for every collection, and
`-1` (a negative index) on the empty collection. -/
theorem C8_renderFromLast_empty {α : Type} (kf : Option α → String → Nat → String)
    (key : String) :
    (∀ items : List α,
      calculateStartingIndex items none kf key true = (items.length : Int) - 1) ∧
    calculateStartingIndex ([] : List α) none kf key true = -1 ∧
    calculateStartingIndex ([] : List α) none kf key true < 0 := by
  refine ⟨fun items => rfl, rfl, by norm_num [calculateStartingIndex]⟩

/-! ## Static occlusion calculator (modelled from the spec) -/

/-- Result of one static occlusion computation. -/
structure StaticOcclusion where
  firstVisible : Nat
  lastVisible : Nat
  renderStart : Nat
  renderEnd : Nat
  beforeSpacer : Nat
  afterSpacer : Nat
  deriving DecidableEq, Repr

/-- Modelled from the spec: the StaticRadar occlusion computation lives in the
addon's `-private` tree, which is not among the sources here; this follows
spec §4.2 verbatim.  `firstVisible = floor(scrollOffset / estimateHeight)` and
`lastVisible = floor((scrollOffset + viewportHeight) / estimateHeight)`, both
clamped to `[0, totalItems-1]`;
`bufferItems = ceil(bufferSize * viewportHeight / estimateHeight)`;
`renderStart = max(0, firstVisible - bufferItems)` (truncated `Nat`
subtraction is exactly this max);
`renderEnd = min(totalItems, lastVisible + bufferItems + 1)`;
`beforeSpacer = renderStart * estimateHeight`;
`afterSpacer = (totalItems - renderEnd) * estimateHeight`.
Ceiling division on `Nat`s with `estimateHeight > 0` is
`(a + estimateHeight - 1) / estimateHeight`. -/
def staticOcclusion (totalItems estimateHeight viewportHeight bufferSize scrollOffset : Nat) :
    StaticOcclusion :=
  let firstVisible := min (scrollOffset / estimateHeight) (totalItems - 1)
  let lastVisible := min ((scrollOffset + viewportHeight) / estimateHeight) (totalItems - 1)
  let bufferItems := (bufferSize * viewportHeight + estimateHeight - 1) / estimateHeight
  let renderStart := firstVisible - bufferItems
  let renderEnd := min totalItems (lastVisible + bufferItems + 1)
  { firstVisible := firstVisible
    lastVisible := lastVisible
    renderStart := renderStart
    renderEnd := renderEnd
    beforeSpacer := renderStart * estimateHeight
    afterSpacer := (totalItems - renderEnd) * estimateHeight }

/-- C2: with 1000 items, estimateHeight 50, viewport height 500, bufferSize 1
and scroll offset 0, the static calculator yields renderStart 0,
firstVisible 0, lastVisible 10, renderEnd 21, beforeSpacer 0 and
afterSpacer 48950. -/
theorem C2_static_concrete :
    staticOcclusion 1000 50 500 1 0 =
      { firstVisible := 0, lastVisible := 10, renderStart := 0, renderEnd := 21,
        beforeSpacer := 0, afterSpacer := 48950 } := by
  decide

/-! ## Component state -/

/-- The Radar class chosen at construction:
`this.staticHeight ? StaticRadar : DynamicRadar`. -/
inductive RadarKind where
  | staticRadar
  | dynamicRadar
  deriving DecidableEq, Repr

/-- `_hasAction`, the record of which of the four edge handlers were present
in `args` at construction time. -/
structure HasActionRecord where
  lastReached : Bool
  firstReached : Bool
  lastVisibleChanged : Bool
  firstVisibleChanged : Bool
  deriving DecidableEq, Repr

/-- `this._hasAction[action]`: in JS, indexing the record with a name that is
not one of the four keys yields `undefined`, which is falsy. -/
def hasActionFor (r : HasActionRecord) (a : String) : Bool :=
  if a == "lastReached" then r.lastReached
  else if a == "firstReached" then r.firstReached
  else if a == "lastVisibleChanged" then r.lastVisibleChanged
  else if a == "firstVisibleChanged" then r.firstVisibleChanged
  else false

/-- `get bufferSize() { return this.args.bufferSize ?? 1; }`. -/
def bufferSize (argsBufferSize : Option Int) : Int :=
  argsBufferSize.getD 1

/-- `get isEmpty() { return this.items?.length === 0; }` — when `items` is
null/undefined, optional chaining yields `undefined`, and
`undefined === 0` is `false`. -/
def isEmpty {α : Type} (items : Option (List α)) : Bool :=
  match items with
  | none => false
  | some l => decide (l.length = 0)

/-- `get shouldYieldToInverse() { return this.isEmpty; }`. -/
def shouldYieldToInverse {α : Type} (items : Option (List α)) : Bool :=
  isEmpty items

/-- The mutable fields of a `VerticalCollection` instance (plus, for the
Radar, the fields the component writes into it and the set of timer ids
passed to `clearTimeout`). -/
structure ComponentState (α : Type) where
  radarKind : RadarKind
  radarItems : List α
  radarEstimateHeight : Option Int
  radarRenderAll : Bool
  radarBufferSize : Int
  radarStartingIndex : Int
  updateScheduled : Bool
  hasAction : Option HasActionRecord
  sendActionInstalled : Bool
  scheduledActions : List (String × Nat)
  nextSendActions : Option Nat
  clearedTimers : List Nat
  tokenCancelled : Bool
  radarDestroyed : Bool

/-- The constructor (`src/addon/components/vertical-collection.ts:261-328`):
picks `StaticRadar` or `DynamicRadar` from `staticHeight`, seeds the radar
with `items || []` and `calculateStartingIndex`, initialises the action
bookkeeping, and installs `_radar.sendAction` exactly when at least one of
the four handler args is present. -/
def constructComponent {α : Type} (argsItems : Option (List α))
    (argsStaticHeight : Option Bool) (argsBufferSize : Option Int)
    (argsEstimateHeight : Option Int) (argsRenderAll : Option Bool)
    (argsRenderFromLast : Option Bool) (argsIdForFirstItem : Option String)
    (kf : Option α → String → Nat → String)
    (aLast aFirst aLastVis aFirstVis : Bool) : ComponentState α :=
  let items := argsItems.getD []
  let any := aLast || aFirst || aLastVis || aFirstVis
  { radarKind := if argsStaticHeight.getD false then RadarKind.staticRadar
                 else RadarKind.dynamicRadar
    radarItems := items
    radarEstimateHeight := argsEstimateHeight
    radarRenderAll := argsRenderAll.getD false
    radarBufferSize := bufferSize argsBufferSize
    radarStartingIndex :=
      calculateStartingIndex items argsIdForFirstItem kf "@identity"
        (argsRenderFromLast.getD false)
    updateScheduled := false
    hasAction := if any then some ⟨aLast, aFirst, aLastVis, aFirstVis⟩ else none
    sendActionInstalled := any
    scheduledActions := []
    nextSendActions := none
    clearedTimers := []
    tokenCancelled := false
    radarDestroyed := false }

/-- `_scheduleSendAction(action, index)`
(`src/addon/components/vertical-collection.ts:217-244`): push the pair onto
`_scheduledActions`; if no timer is pending, arm one (`freshId` stands for the
id `window.setTimeout` returns). -/
def scheduleSendAction {α : Type} (s : ComponentState α) (a : String) (i : Nat)
    (freshId : Nat) : ComponentState α :=
  let s1 := { s with scheduledActions := s.scheduledActions ++ [(a, i)] }
  match s1.nextSendActions with
  | none => { s1 with nextSendActions := some freshId }
  | some _ => s1

/-- The body of the `setTimeout` callback: for each scheduled `(action, index)`
in order, resolve `item = objectAt(items, index)` and
`key = keyForItem(item, keyPath, index)` against the component's items and
key path AT FIRE TIME, and invoke the handler when `this.args[action]` is a
function.  The returned list is the sequence of handler invocations
`(action, item, index, key)`. -/
def dispatchBatch {α : Type} (scheduled : List (String × Nat)) (items : Option (List α))
    (keyPath : String) (kf : Option α → String → Nat → String)
    (hasHandler : String → Bool) : List (String × Option α × Nat × String) :=
  (scheduled.filter (fun p => hasHandler p.1)).map
    (fun p => (p.1, objectAt items p.2, p.2, kf (objectAt items p.2) keyPath p.2))

/-- The timer firing (`src/addon/components/vertical-collection.ts:221-242`):
nulls `_nextSendActions`, dispatches every accumulated action in order, then
empties `_scheduledActions`.  Returns the new state and the dispatched
batch. -/
def fireTimer {α : Type} (s : ComponentState α) (items : Option (List α))
    (keyPath : String) (kf : Option α → String → Nat → String)
    (hasHandler : String → Bool) :
    ComponentState α × List (String × Option α × Nat × String) :=
  ({ s with nextSendActions := none, scheduledActions := [] },
   dispatchBatch s.scheduledActions items keyPath kf hasHandler)

/-- The `_radar.sendAction` closure
(`src/addon/components/vertical-collection.ts:322-326`): only installed when
some handler was present at construction, and only schedules when
`this._hasAction && this._hasAction[action]`. -/
def radarSendAction {α : Type} (s : ComponentState α) (a : String) (i : Nat)
    (freshId : Nat) : ComponentState α :=
  if s.sendActionInstalled then
    match s.hasAction with
    | some r => if hasActionFor r a then scheduleSendAction s a i freshId else s
    | none => s
  else s

/-- The `virtualComponents` getter
(`src/addon/components/vertical-collection.ts:199-211`): writes
`items === null || items === undefined ? [] : items`, the current
`estimateHeight`, `renderAll` and `bufferSize` into the radar and schedules an
update.  It never touches `_radar` itself. -/
def virtualComponentsUpdate {α : Type} (s : ComponentState α)
    (argsItems : Option (List α)) (argsEstimateHeight : Option Int)
    (argsRenderAll : Option Bool) (argsBufferSize : Option Int) : ComponentState α :=
  { s with
    radarItems := match argsItems with
                  | none => []
                  | some l => l
    radarEstimateHeight := argsEstimateHeight
    radarRenderAll := argsRenderAll.getD false
    radarBufferSize := bufferSize argsBufferSize
    updateScheduled := true }

/-- `willDestroyMainContainer`
(`src/addon/components/vertical-collection.ts:253-259`): cancel the scheduler
token, destroy the radar, and — when `this._nextSendActions` is truthy
(`setTimeout` ids are positive, so a pending id is truthy) — pass it to
`clearTimeout`.  The field itself is not nulled. -/
def willDestroyMainContainer {α : Type} (s : ComponentState α) : ComponentState α :=
  let s1 := { s with tokenCancelled := true, radarDestroyed := true }
  match s1.nextSendActions with
  | some id => if id ≠ 0 then { s1 with clearedTimers := s1.clearedTimers ++ [id] } else s1
  | none => s1

/-- Modelled from the spec: the `ember-raf-scheduler` token semantics are not
among the sources here; per spec §5, a scheduled update phase runs only while
its token is not cancelled and the Radar not destroyed. -/
def updatePhaseRuns {α : Type} (s : ComponentState α) : Bool :=
  !s.tokenCancelled && !s.radarDestroyed

/-- Modelled from the spec: `window.setTimeout`/`clearTimeout` semantics are
external; a pending timer with id `id` fires only if it is still recorded in
`_nextSendActions` and was never passed to `clearTimeout`. -/
def edgeTimerFires {α : Type} (s : ComponentState α) (id : Nat) : Bool :=
  s.nextSendActions == some id && !(decide (id ∈ s.clearedTimers))

/-- The operations that can touch a constructed component's state: the
`_radar.sendAction` closure, the dispatch timer firing, the
`virtualComponents` getter, `didInsertMainContainer` (which only schedules
`_radar.start()` and changes none of the modelled fields), and
`willDestroyMainContainer`. -/
inductive ComponentStep {α : Type} : ComponentState α → ComponentState α → Prop where
  | sendAction (s : ComponentState α) (a : String) (i freshId : Nat) :
      ComponentStep s (radarSendAction s a i freshId)
  | fire (s : ComponentState α) (items : Option (List α)) (keyPath : String)
      (kf : Option α → String → Nat → String) (hasHandler : String → Bool) :
      ComponentStep s (fireTimer s items keyPath kf hasHandler).1
  | virtualComponents (s : ComponentState α) (argsItems : Option (List α))
      (argsEstimateHeight : Option Int) (argsRenderAll : Option Bool)
      (argsBufferSize : Option Int) :
      ComponentStep s
        (virtualComponentsUpdate s argsItems argsEstimateHeight argsRenderAll argsBufferSize)
  | didInsert (s : ComponentState α) : ComponentStep s s
  | destroy (s : ComponentState α) : ComponentStep s (willDestroyMainContainer s)

/-- A sequence of `_scheduleSendAction` calls, each with the timer id that
`window.setTimeout` would return were that call to arm the timer. -/
def scheduleMany {α : Type} (s : ComponentState α) (calls : List (String × Nat × Nat)) :
    ComponentState α :=
  calls.foldl (fun t c => scheduleSendAction t c.1 c.2.1 c.2.2) s

theorem scheduleSendAction_pending {α : Type} (s : ComponentState α) (a : String)
    (i freshId t : Nat) (h : s.nextSendActions = some t) :
    (scheduleSendAction s a i freshId).nextSendActions = some t ∧
    (scheduleSendAction s a i freshId).scheduledActions = s.scheduledActions ++ [(a, i)] := by
  simp [scheduleSendAction, h]

theorem scheduleMany_pending {α : Type} (calls : List (String × Nat × Nat)) :
    ∀ (s : ComponentState α) (t : Nat), s.nextSendActions = some t →
      (scheduleMany s calls).nextSendActions = some t ∧
      (scheduleMany s calls).scheduledActions =
        s.scheduledActions ++ calls.map (fun c => (c.1, c.2.1)) := by
  induction calls with
  | nil => intro s t h; simpa [scheduleMany] using h
  | cons c rest ih =>
    intro s t h
    have hstep := scheduleSendAction_pending s c.1 c.2.1 c.2.2 t h
    have hrest := ih (scheduleSendAction s c.1 c.2.1 c.2.2) t hstep.1
    refine ⟨hrest.1, ?_⟩
    rw [scheduleMany] at hrest ⊢
    simp only [List.foldl_cons, List.map_cons]
    rw [hrest.2, hstep.2, List.append_assoc]
    rfl

/-- C3: while a dispatch timer is pending, further `_scheduleSendAction` calls
leave the pending timer untouched and only append to the scheduled list (a
call from the unarmed state is the one that arms the timer); when the timer
fires, every accumulated action is dispatched in call order as a single batch
and the scheduled list becomes empty, with no timer armed. -/
theorem C3_single_timer_batch {α : Type} (s : ComponentState α) (t : Nat)
    (calls : List (String × Nat × Nat)) (items : Option (List α)) (keyPath : String)
    (kf : Option α → String → Nat → String) (hasHandler : String → Bool)
    (h : s.nextSendActions = some t) :
    (scheduleMany s calls).nextSendActions = some t ∧
    (scheduleMany s calls).scheduledActions =
      s.scheduledActions ++ calls.map (fun c => (c.1, c.2.1)) ∧
    (fireTimer (scheduleMany s calls) items keyPath kf hasHandler).2 =
      dispatchBatch (s.scheduledActions ++ calls.map (fun c => (c.1, c.2.1)))
        items keyPath kf hasHandler ∧
    (fireTimer (scheduleMany s calls) items keyPath kf hasHandler).1.scheduledActions = [] ∧
    (fireTimer (scheduleMany s calls) items keyPath kf hasHandler).1.nextSendActions = none ∧
    (∀ (s' : ComponentState α) (a : String) (i freshId : Nat),
      s'.nextSendActions = none →
        (scheduleSendAction s' a i freshId).nextSendActions = some freshId) := by
  obtain ⟨h1, h2⟩ := scheduleMany_pending calls s t h
  refine ⟨h1, h2, ?_, rfl, rfl, ?_⟩
  · show dispatchBatch (scheduleMany s calls).scheduledActions items keyPath kf hasHandler = _
    rw [h2]
  · intro s' a i freshId h'
    simp [scheduleSendAction, h']

/-- Witness for C3 at a concrete input: a state with a pending timer (id 7)
and one already-scheduled action, two further calls, items `[10, 20, 30]`. -/
theorem C3_single_timer_batch_witness :
    let s : ComponentState Nat :=
      { radarKind := RadarKind.staticRadar, radarItems := [10, 20, 30],
        radarEstimateHeight := some 50, radarRenderAll := false, radarBufferSize := 1,
        radarStartingIndex := 0, updateScheduled := false,
        hasAction := some ⟨true, true, false, false⟩, sendActionInstalled := true,
        scheduledActions := [("firstReached", 0)], nextSendActions := some 7,
        clearedTimers := [], tokenCancelled := false, radarDestroyed := false }
    let calls : List (String × Nat × Nat) := [("lastReached", 2, 8), ("firstReached", 1, 9)]
    let kf : Option Nat → String → Nat → String := fun _ _ i => toString i
    let hh : String → Bool := fun _ => true
    (scheduleMany s calls).nextSendActions = some 7 ∧
    (scheduleMany s calls).scheduledActions =
      s.scheduledActions ++ calls.map (fun c => (c.1, c.2.1)) ∧
    (fireTimer (scheduleMany s calls) (some [10, 20, 30]) "@index" kf hh).2 =
      dispatchBatch (s.scheduledActions ++ calls.map (fun c => (c.1, c.2.1)))
        (some [10, 20, 30]) "@index" kf hh ∧
    (fireTimer (scheduleMany s calls) (some [10, 20, 30]) "@index" kf hh).1.scheduledActions
      = [] ∧
    (fireTimer (scheduleMany s calls) (some [10, 20, 30]) "@index" kf hh).1.nextSendActions
      = none ∧
    (scheduleSendAction
      ({ s with scheduledActions := [], nextSendActions := none } : ComponentState Nat)
      "firstReached" 0 5).nextSendActions = some 5 := by
  intro s calls kf hh
  obtain ⟨h1, h2, h3, h4, h5, h6⟩ :=
    C3_single_timer_batch s 7 calls (some [10, 20, 30]) "@index" kf hh rfl
  exact ⟨h1, h2, h3, h4, h5, h6 _ "firstReached" 0 5 rfl⟩

theorem willDestroy_eq {α : Type} (s : ComponentState α) :
    willDestroyMainContainer s =
      { s with tokenCancelled := true, radarDestroyed := true,
               clearedTimers :=
                 match s.nextSendActions with
                 | some id => if id ≠ 0 then s.clearedTimers ++ [id] else s.clearedTimers
                 | none => s.clearedTimers } := by
  unfold willDestroyMainContainer
  cases h : s.nextSendActions with
  | none => simp [h]
  | some id =>
    simp only [h]
    split <;> rfl

/-- C4: `willDestroyMainContainer` cancels the scheduler token, destroys the
radar, and clears any pending dispatch timer (timer ids from `setTimeout` are
positive, hence truthy), so afterwards no scheduled update phase runs and the
pending edge-action timer never fires. -/
theorem C4_teardown {α : Type} (s : ComponentState α) :
    (willDestroyMainContainer s).tokenCancelled = true ∧
    (willDestroyMainContainer s).radarDestroyed = true ∧
    updatePhaseRuns (willDestroyMainContainer s) = false ∧
    (∀ id, s.nextSendActions = some id → id ≠ 0 →
      edgeTimerFires (willDestroyMainContainer s) id = false) := by
  rw [willDestroy_eq]
  refine ⟨rfl, rfl, rfl, ?_⟩
  intro id hid hpos
  simp [edgeTimerFires, hid, hpos]

/-- Witness for C4 at a concrete input: a live component with a pending timer
of id 3. -/
theorem C4_teardown_witness :
    let s : ComponentState Nat :=
      { radarKind := RadarKind.dynamicRadar, radarItems := [1, 2],
        radarEstimateHeight := some 20, radarRenderAll := false, radarBufferSize := 1,
        radarStartingIndex := 0, updateScheduled := true,
        hasAction := none, sendActionInstalled := false,
        scheduledActions := [("lastReached", 1)], nextSendActions := some 3,
        clearedTimers := [], tokenCancelled := false, radarDestroyed := false }
    (willDestroyMainContainer s).tokenCancelled = true ∧
    (willDestroyMainContainer s).radarDestroyed = true ∧
    updatePhaseRuns (willDestroyMainContainer s) = false ∧
    edgeTimerFires (willDestroyMainContainer s) 3 = false := by
  intro s
  obtain ⟨h1, h2, h3, h4⟩ := C4_teardown s
  exact ⟨h1, h2, h3, h4 3 rfl (by decide)⟩

/-- C5: every entry of a fired dispatch batch is a scheduled `(action, index)`
whose handler is registered at fire time, delivered as the triple
`(item, index, key)` with `item = objectAt(items, index)` and
`key = keyForItem(item, keyPath, index)` resolved from the items and key path
passed to the timer callback when it fires. -/
theorem C5_dispatch_triple {α : Type} (s : ComponentState α) (items : Option (List α))
    (keyPath : String) (kf : Option α → String → Nat → String)
    (hasHandler : String → Bool) (entry : String × Option α × Nat × String)
    (hmem : entry ∈ (fireTimer s items keyPath kf hasHandler).2) :
    ∃ a i, (a, i) ∈ s.scheduledActions ∧ hasHandler a = true ∧
      entry = (a, objectAt items i, i, kf (objectAt items i) keyPath i) := by
  simp only [fireTimer, dispatchBatch, List.mem_map, List.mem_filter] at hmem
  obtain ⟨⟨a, i⟩, ⟨hmem', hh⟩, heq⟩ := hmem
  exact ⟨a, i, hmem', hh, heq.symm⟩

/-- Witness for C5 at a concrete input: one scheduled `firstReached` at
index 1 over items `[5, 6]` with a constant key function. -/
theorem C5_dispatch_triple_witness :
    let s : ComponentState Nat :=
      { radarKind := RadarKind.staticRadar, radarItems := [5, 6],
        radarEstimateHeight := some 10, radarRenderAll := false, radarBufferSize := 1,
        radarStartingIndex := 0, updateScheduled := false,
        hasAction := some ⟨false, true, false, false⟩, sendActionInstalled := true,
        scheduledActions := [("firstReached", 1)], nextSendActions := some 2,
        clearedTimers := [], tokenCancelled := false, radarDestroyed := false }
    let kf : Option Nat → String → Nat → String := fun _ _ _ => "k"
    let hh : String → Bool := fun a => a == "firstReached"
    ∃ a i, (a, i) ∈ s.scheduledActions ∧ hh a = true ∧
      (("firstReached", some 6, 1, "k") : String × Option Nat × Nat × String) =
        (a, objectAt (some [5, 6]) i, i, kf (objectAt (some [5, 6]) i) "@index" i) := by
  intro s kf hh
  exact C5_dispatch_triple s (some [5, 6]) "@index" kf hh ("firstReached", some 6, 1, "k")
    (by simp [fireTimer, dispatchBatch, objectAt, s, kf, hh])

/-! ## Construction-time snapshots (C6, C7, C9) -/

/-- Modelled from the spec: `Radar.start()` and its configuration assertions
live in the addon's `-private` tree, which is not among the sources here; per
spec §7(a), an invalid `bufferSize <= 0` is reported as an assertion-style
failure surfaced at `start()`. -/
def radarStartValidate (b : Int) : Except String Unit :=
  if b ≤ 0 then Except.error "bufferSize must be greater than 0" else Except.ok ()

/-- C6: an absent `bufferSize` argument defaults to 1, and a configured
`bufferSize <= 0` makes the start-time validation fail with an
assertion-style error. -/
theorem C6_bufferSize_default_and_assert :
    bufferSize none = 1 ∧
    ∀ b : Int, b ≤ 0 →
      radarStartValidate b = Except.error "bufferSize must be greater than 0" := by
  refine ⟨rfl, fun b hb => ?_⟩
  simp [radarStartValidate, hb]

/-- Witness for C6 at the concrete input `bufferSize = 0`. -/
theorem C6_bufferSize_default_and_assert_witness :
    bufferSize none = 1 ∧
    radarStartValidate 0 = Except.error "bufferSize must be greater than 0" :=
  ⟨C6_bufferSize_default_and_assert.1,
   C6_bufferSize_default_and_assert.2 0 (by decide)⟩

theorem scheduleSendAction_snapshot {α : Type} (s : ComponentState α) (a : String)
    (i freshId : Nat) :
    (scheduleSendAction s a i freshId).radarKind = s.radarKind ∧
    (scheduleSendAction s a i freshId).hasAction = s.hasAction ∧
    (scheduleSendAction s a i freshId).sendActionInstalled = s.sendActionInstalled := by
  unfold scheduleSendAction
  cases h : s.nextSendActions <;> simp [h]

theorem radarSendAction_snapshot {α : Type} (s : ComponentState α) (a : String)
    (i freshId : Nat) :
    (radarSendAction s a i freshId).radarKind = s.radarKind ∧
    (radarSendAction s a i freshId).hasAction = s.hasAction ∧
    (radarSendAction s a i freshId).sendActionInstalled = s.sendActionInstalled := by
  unfold radarSendAction
  split
  · split
    · split
      · exact scheduleSendAction_snapshot s a i freshId
      · exact ⟨rfl, rfl, rfl⟩
    · exact ⟨rfl, rfl, rfl⟩
  · exact ⟨rfl, rfl, rfl⟩

/-- No component operation changes `_radar`'s class, `_hasAction`, or whether
the `sendAction` closure is installed: all three are construction-time
snapshots. -/
theorem componentStep_snapshot {α : Type} {s s' : ComponentState α}
    (h : ComponentStep s s') :
    s'.radarKind = s.radarKind ∧ s'.hasAction = s.hasAction ∧
    s'.sendActionInstalled = s.sendActionInstalled := by
  cases h with
  | sendAction a i freshId => exact radarSendAction_snapshot s a i freshId
  | fire items keyPath kf hasHandler => exact ⟨rfl, rfl, rfl⟩
  | virtualComponents argsItems argsEstimateHeight argsRenderAll argsBufferSize =>
    exact ⟨rfl, rfl, rfl⟩
  | didInsert => exact ⟨rfl, rfl, rfl⟩
  | destroy => rw [willDestroy_eq]; exact ⟨rfl, rfl, rfl⟩

theorem reachable_snapshot {α : Type} {s s' : ComponentState α}
    (h : Relation.ReflTransGen ComponentStep s s') :
    s'.radarKind = s.radarKind ∧ s'.hasAction = s.hasAction ∧
    s'.sendActionInstalled = s.sendActionInstalled := by
  induction h with
  | refl => exact ⟨rfl, rfl, rfl⟩
  | tail _ hstep ih =>
    have hs := componentStep_snapshot hstep
    exact ⟨hs.1.trans ih.1, hs.2.1.trans ih.2.1, hs.2.2.trans ih.2.2⟩

/-- C7: the Radar class is chosen exactly once, at construction, from the
`staticHeight` argument, and no later operation (including `virtualComponents`
reading the current — possibly changed — args) replaces it. -/
theorem C7_radar_selected_once {α : Type} (argsItems : Option (List α))
    (argsStaticHeight : Option Bool) (argsBufferSize : Option Int)
    (argsEstimateHeight : Option Int) (argsRenderAll : Option Bool)
    (argsRenderFromLast : Option Bool) (argsIdForFirstItem : Option String)
    (kf : Option α → String → Nat → String) (aLast aFirst aLastVis aFirstVis : Bool)
    (s' : ComponentState α)
    (h : Relation.ReflTransGen ComponentStep
      (constructComponent argsItems argsStaticHeight argsBufferSize argsEstimateHeight
        argsRenderAll argsRenderFromLast argsIdForFirstItem kf
        aLast aFirst aLastVis aFirstVis) s') :
    s'.radarKind = (if argsStaticHeight.getD false then RadarKind.staticRadar
                    else RadarKind.dynamicRadar) :=
  (reachable_snapshot h).1

/-- Witness for C7 at a concrete input: a component constructed with
`staticHeight = true`, observed right after construction. -/
theorem C7_radar_selected_once_witness :
    (constructComponent (some [1, 2, 3]) (some true) none (some 50) none none none
      (fun _ _ _ => "k") false false false false : ComponentState Nat).radarKind =
      (if (some true).getD false then RadarKind.staticRadar
       else RadarKind.dynamicRadar) :=
  C7_radar_selected_once (some [1, 2, 3]) (some true) none (some 50) none none none
    (fun _ _ _ => "k") false false false false _ Relation.ReflTransGen.refl

theorem componentStep_uninstalled {α : Type} {s s' : ComponentState α}
    (h : ComponentStep s s') (h1 : s.sendActionInstalled = false)
    (h2 : s.scheduledActions = []) :
    s'.sendActionInstalled = false ∧ s'.scheduledActions = [] := by
  refine ⟨(componentStep_snapshot h).2.2.trans h1, ?_⟩
  cases h with
  | sendAction a i freshId => unfold radarSendAction; simp [h1, h2]
  | fire items keyPath kf hasHandler => rfl
  | virtualComponents argsItems argsEstimateHeight argsRenderAll argsBufferSize =>
    exact h2
  | didInsert => exact h2
  | destroy => rw [willDestroy_eq]; exact h2

theorem componentStep_no_schedule {α : Type} (n : String) {s s' : ComponentState α}
    (h : ComponentStep s s')
    (hguard : ∀ r, s.hasAction = some r → hasActionFor r n = false)
    (hsched : ∀ i, (n, i) ∉ s.scheduledActions) :
    ∀ i, (n, i) ∉ s'.scheduledActions := by
  cases h with
  | sendAction a i freshId =>
    intro j
    unfold radarSendAction
    split
    · rcases hr : s.hasAction with _ | r
      · simp only [hr]
        exact hsched j
      · simp only [hr]
        by_cases hfor : hasActionFor r a
        · simp only [hfor, if_true]
          unfold scheduleSendAction
          cases hn : s.nextSendActions <;>
          · simp only [hn]
            intro hmem
            rcases List.mem_append.mp hmem with hmem' | hmem'
            · exact hsched j hmem'
            · have hna : n = a := congrArg Prod.fst (List.mem_singleton.mp hmem')
              rw [hna] at hguard
              exact absurd hfor (by simpa using hguard r hr)
        · simp only [hfor, if_false]
          exact hsched j
    · exact hsched j
  | fire items keyPath kf hasHandler => intro j; simp [fireTimer]
  | virtualComponents argsItems argsEstimateHeight argsRenderAll argsBufferSize =>
    exact hsched
  | didInsert => exact hsched
  | destroy => rw [willDestroy_eq]; exact hsched

theorem reachable_no_schedule {α : Type} (n : String) {s s' : ComponentState α}
    (h : Relation.ReflTransGen ComponentStep s s')
    (hguard : ∀ r, s.hasAction = some r → hasActionFor r n = false)
    (hsched : ∀ i, (n, i) ∉ s.scheduledActions) :
    ∀ i, (n, i) ∉ s'.scheduledActions := by
  induction h with
  | refl => exact hsched
  | tail hreach hstep ih =>
    refine componentStep_no_schedule n hstep ?_ ih
    intro r hr
    exact hguard r ((reachable_snapshot hreach).2.1 ▸ hr)

theorem reachable_uninstalled {α : Type} {s s' : ComponentState α}
    (h : Relation.ReflTransGen ComponentStep s s')
    (h1 : s.sendActionInstalled = false) (h2 : s.scheduledActions = []) :
    s'.sendActionInstalled = false ∧ s'.scheduledActions = [] := by
  induction h with
  | refl => exact ⟨h1, h2⟩
  | tail _ hstep ih => exact componentStep_uninstalled hstep ih.1 ih.2

/-- C9: whether edge callbacks can ever be dispatched is frozen at
construction.  If none of the four handler args was present, `sendAction` is
never installed and nothing is ever scheduled; and an action whose handler was
absent at construction is never scheduled in any reachable state, even though
later operations read the current args. -/
theorem C9_handler_snapshot {α : Type} (argsItems : Option (List α))
    (argsStaticHeight : Option Bool) (argsBufferSize : Option Int)
    (argsEstimateHeight : Option Int) (argsRenderAll : Option Bool)
    (argsRenderFromLast : Option Bool) (argsIdForFirstItem : Option String)
    (kf : Option α → String → Nat → String) (aLast aFirst aLastVis aFirstVis : Bool)
    (s' : ComponentState α)
    (h : Relation.ReflTransGen ComponentStep
      (constructComponent argsItems argsStaticHeight argsBufferSize argsEstimateHeight
        argsRenderAll argsRenderFromLast argsIdForFirstItem kf
        aLast aFirst aLastVis aFirstVis) s') :
    ((aLast || aFirst || aLastVis || aFirstVis) = false →
      s'.sendActionInstalled = false ∧ s'.scheduledActions = []) ∧
    (∀ n, hasActionFor ⟨aLast, aFirst, aLastVis, aFirstVis⟩ n = false →
      ∀ i, (n, i) ∉ s'.scheduledActions) := by
  constructor
  · intro hany
    exact reachable_uninstalled h (by simp [constructComponent, hany]) rfl
  · intro n hn
    refine reachable_no_schedule n h ?_ (by intro i; simp [constructComponent])
    intro r hr
    by_cases hany : (aLast || aFirst || aLastVis || aFirstVis) = true
    · simp only [constructComponent, hany, if_true] at hr
      injection hr with hr'
      rw [← hr']
      exact hn
    · simp [constructComponent, hany] at hr

/-- Witness for C9 at a concrete input: only `firstReached` present at
construction; `lastReached` is never scheduled, observed right after
construction. -/
theorem C9_handler_snapshot_witness :
    ("lastReached", 0) ∉
      (constructComponent (some [1, 2]) none none (some 50) none none none
        (fun _ _ _ => "k") false true false false : ComponentState Nat).scheduledActions :=
  (C9_handler_snapshot (some [1, 2]) none none (some 50) none none none
    (fun _ _ _ => "k") false true false false _ Relation.ReflTransGen.refl).2
    "lastReached" (by decide) 0

/-! ## Emptiness (C10) -/

/-- C10: `isEmpty` (and `shouldYieldToInverse`, which returns it) is true
exactly when `items` is a present collection of length 0; a null/undefined
`items` gives `isEmpty = false`, even though the `virtualComponents` getter
substitutes the empty array before handing items to the radar. -/
theorem C10_isEmpty_iff (α : Type) :
    (∀ items : Option (List α),
      isEmpty items = true ↔ ∃ l, items = some l ∧ l.length = 0) ∧
    isEmpty (none : Option (List α)) = false ∧
    (∀ items : Option (List α), shouldYieldToInverse items = isEmpty items) ∧
    (∀ (s : ComponentState α) (argsEstimateHeight : Option Int)
      (argsRenderAll : Option Bool) (argsBufferSize : Option Int),
      (virtualComponentsUpdate s none argsEstimateHeight argsRenderAll
        argsBufferSize).radarItems = []) := by
  refine ⟨?_, rfl, fun _ => rfl, fun _ _ _ _ => rfl⟩
  intro items
  cases items with
  | none => simp [isEmpty]
  | some l => simp [isEmpty]

/-- Witness for C10 at concrete inputs: the empty present collection is
empty, the null collection is not. -/
theorem C10_isEmpty_iff_witness :
    isEmpty (some ([] : List Nat)) = true ∧
    isEmpty (none : Option (List Nat)) = false :=
  ⟨((C10_isEmpty_iff Nat).1 (some [])).mpr ⟨[], rfl, rfl⟩, (C10_isEmpty_iff Nat).2.1⟩

end VC
